import Mathlib

/-!
Shallow embedding of sailfish/subdomain.py: subdomain geometry, face maps,
connection registration (SubdomainSpec), and the per-region node grid
(Subdomain) with its write API, ghost stamping, classification pass and
encoding gate.  Node type ids, parameter bundles and the LBConnection
collaborator are abstracted exactly at their interface surface, as the
source file itself only manipulates them opaquely.
-/

namespace Sailfish

/-- Face id constants from SubdomainSpec. -/
def X_LOW : Nat := 0

def X_HIGH : Nat := 1

def Y_LOW : Nat := 2

def Y_HIGH : Nat := 3

def Z_LOW : Nat := 4

def Z_HIGH : Nat := 5

/-- SubdomainSpec.face_to_dir: low faces map to -1, everything else to 1
(the Python else branch catches all remaining values). -/
def face_to_dir (face : Nat) : Int :=
  if face = X_LOW ∨ face = Y_LOW ∨ face = Z_LOW then -1 else 1

/-- SubdomainSpec.face_to_axis: axis number for a face constant; the Python
function falls off the end (returns None) for unknown faces. -/
def face_to_axis (face : Nat) : Option Nat :=
  if face = X_HIGH ∨ face = X_LOW then some 0
  else if face = Y_HIGH ∨ face = Y_LOW then some 1
  else if face = Z_HIGH ∨ face = Z_LOW then some 2
  else none

/-- SubdomainSpec.axis_dir_to_face, translated branch by branch.  Note the
axis = 2 branch tests dir = -1 twice, exactly as the source does; the
second test is unreachable and dir = 1 falls through to None. -/
def axis_dir_to_face (axis : Nat) (dir : Int) : Option Nat :=
  if axis = 0 then
    if dir = -1 then some X_LOW
    else if dir = 1 then some X_HIGH
    else none
  else if axis = 1 then
    if dir = -1 then some Y_LOW
    else if dir = 1 then some Y_HIGH
    else none
  else if axis = 2 then
    if dir = -1 then some Z_LOW
    else if dir = -1 then some Z_HIGH
    else none
  else none

/-- An LBConnection descriptor (external collaborator).  The only field the
code in subdomain.py reads is block_id; the remaining payload (index spans)
is abstracted as a natural number so that distinct descriptors with the
same block_id exist. -/
structure Conn where
  block_id : Nat
  payload : Nat
deriving DecidableEq, Repr

/-- ConnectionPair namedtuple.  In connect_x the second descriptor is
registered without a None check, so both slots are carried as options. -/
structure CPair where
  src : Option Conn
  dst : Option Conn
deriving DecidableEq, Repr

/-- The _connections defaultdict(list): an association list from face id to
the ordered list of pairs.  Keeping explicit key presence matters because
defaultdict getitem inserts missing keys. -/
abbrev ConnMap := List (Nat × List CPair)

/-- defaultdict getitem: returns the stored list if the key is present and
otherwise inserts an empty list for the key (mutating the dict) and
returns it. -/
def ddLookup (m : ConnMap) (k : Nat) : List CPair × ConnMap :=
  match List.lookup k m with
  | some l => (l, m)
  | none => ([], m ++ [(k, [])])

/-- Assignment of a value to an existing key (models in-place mutation of
the list stored in the dict). -/
def ddSet (m : ConnMap) (k : Nat) (v : List CPair) : ConnMap :=
  m.map fun p => if p.1 = k then (p.1, v) else p

/-- SubdomainSpec._add_connection: if cpair is already in the face list the
call is a no-op, otherwise the pair is appended.  The membership test is
pair equality, not remote-id equality. -/
def add_connection (m : ConnMap) (face : Nat) (cpair : CPair) : ConnMap :=
  let r := ddLookup m face
  if cpair ∈ r.1 then r.2 else ddSet r.2 face (r.1 ++ [cpair])

/-- Test used by get_connection and get_connections:
pair.dst.block_id == subdomain_id.  (A None dst would raise in Python; no
claim exercises that corner and it is mapped to false here.) -/
def dstIdIs (p : CPair) (i : Nat) : Bool :=
  match p.dst with
  | some c => c.block_id == i
  | none => false

/-- SubdomainSpec.get_connections: filters the face list by remote id.
Indexing the defaultdict inserts the key when absent, so the possibly
mutated map is returned alongside the result. -/
def get_connections (m : ConnMap) (face i : Nat) : List CPair × ConnMap :=
  let r := ddLookup m face
  (r.1.filter (fun p => dstIdIs p i), r.2)

/-- SubdomainSpec.get_connection: first pair on the face whose dst block id
matches, None otherwise; same defaultdict insertion effect. -/
def get_connection (m : ConnMap) (face i : Nat) : Option CPair × ConnMap :=
  let r := ddLookup m face
  (r.1.find? (fun p => dstIdIs p i), r.2)

/-- SubdomainSpec.has_face_conn: membership of the face among the dict
keys; this one does not index the defaultdict and mutates nothing. -/
def has_face_conn (m : ConnMap) (face : Nat) : Bool :=
  (List.lookup face m).isSome

/-- Geometry and connection state of a SubdomainSpec.  ox/oy/oz are the
location, ex/ey/ez the end_location (origin plus size); for dim 2 the z
fields are unused. -/
structure Spec where
  dim : Nat
  id : Nat
  ox : Int
  oy : Int
  oz : Int
  ex : Int
  ey : Int
  ez : Int
  conns : ConnMap
deriving DecidableEq, Repr

/-- The inner connect_x / connect_y / connect_z helpers, generic in the
face pair.  c1 = LBConnection.make(v1, v2, faceHigh), c2 = make(v2, v1,
faceLow); only c1 is checked for None before registration.  Returns the
success flag and the updated (r1, r2). -/
def connectAxis (make : Spec → Spec → Nat → Option Conn)
    (faceHigh faceLow : Nat) (r1 r2 v1 v2 : Spec) : Bool × Spec × Spec :=
  let c1 := make v1 v2 faceHigh
  let c2 := make v2 v1 faceLow
  match c1 with
  | none => (false, r1, r2)
  | some c =>
    (true,
     { r1 with conns := add_connection r1.conns faceHigh ⟨some c, c2⟩ },
     { r2 with conns := add_connection r2.conns faceLow ⟨c2, some c⟩ })

/-- SubdomainSpec.connect on a SubdomainPair (real, virtual).  The initial
assert (pair.real.id != self.id) is modelled as None on violation.  The
result triple is (success, updated self, updated real); the virtual
subdomain is only read, never written.  Axes are tried in the source
order, adjacency always tested against the virtual member. -/
def connect (make : Spec → Spec → Nat → Option Conn)
    (self real virt : Spec) : Option (Bool × Spec × Spec) :=
  if real.id = self.id then none
  else some (
    if self.ex = virt.ox then
      connectAxis make X_HIGH X_LOW self real self virt
    else if virt.ex = self.ox then
      let r := connectAxis make X_HIGH X_LOW real self virt self
      (r.1, r.2.2, r.2.1)
    else if self.ey = virt.oy then
      connectAxis make Y_HIGH Y_LOW self real self virt
    else if virt.ey = self.oy then
      let r := connectAxis make Y_HIGH Y_LOW real self virt self
      (r.1, r.2.2, r.2.1)
    else if self.dim = 3 then
      if self.ez = virt.oz then
        connectAxis make Z_HIGH Z_LOW self real self virt
      else if virt.ez = self.oz then
        let r := connectAxis make Z_HIGH Z_LOW real self virt self
        (r.1, r.2.2, r.2.1)
      else (false, self, real)
    else (false, self, real))

/-- Modelled from the spec: the virtual member of a SubdomainPair is a
translated copy of a real subdomain, positioned on the opposite side of
the domain; the copy construction itself lives outside this source file.
Translation shifts the origin and end coordinates and keeps everything
else (in particular the id). -/
def translate (s : Spec) (dx dy dz : Int) : Spec :=
  { s with ox := s.ox + dx, ex := s.ex + dx,
           oy := s.oy + dy, ey := s.ey + dy,
           oz := s.oz + dz, ez := s.ez + dz }

/-- A node type instance at the interface SubdomainSpec reads: a stable
integer id, an abstract code standing for the parameter bundle, an
optional explicit orientation, and the needs-orientation flag. -/
structure NodeType where
  tid : Nat
  paramsCode : Nat
  orientation : Option Int
  needsOrient : Bool
deriving DecidableEq, Repr

/-- Mutable state of a Subdomain (RegionGrid) over a flattened node index
space of n cells: the type map, the parameter-key map, the key-to-type
registry, the seen-types set, the orientation map, the
needs-orientation flag, the encode gate flag and a counter of encoder
packing invocations (the observable the spec mentions for memoization). -/
structure SubState where
  n : Nat
  typeMap : Nat → Nat
  paramMap : Nat → Int
  params : List (Int × NodeType)
  seenTypes : List Nat
  orientMap : Nat → Int
  needsOrientFlag : Bool
  typeMapEncoded : Bool
  encodeCalls : Nat

/-- Subdomain.set_node.  The where selector is a boolean mask over the
node index space.  Effects and checks in source order: assert the map is
not yet encoded; write the type id into typeMap[where]; compute the
content key hash((id, params)) via the abstract hashKey; assert every
selected paramMap entry is 0 (the write-once invariant); write the key,
register the key-to-type binding, record the seen id; record an explicit
orientation, or raise the needs-orientation flag for orientation-needing
types.  An assert failure is modelled as None (the exception aborts the
call; parameter-shape validation in _verify_params concerns numpy array
shapes that the abstract params code cannot misstate).  The effects of
the successful path are grouped in set_node_apply. -/
def set_node_apply (hashKey : Nat → Nat → Int) (st : SubState)
    (w : Nat → Bool) (t : NodeType) : SubState :=
  let key := hashKey t.tid t.paramsCode
  { st with
    typeMap := fun i => if w i then t.tid else st.typeMap i,
    paramMap := fun i => if w i then key else st.paramMap i,
    params := (key, t) :: st.params,
    seenTypes := t.tid :: st.seenTypes,
    orientMap :=
      match t.orientation with
      | some o => fun i => if w i then o else st.orientMap i
      | none => st.orientMap,
    needsOrientFlag :=
      match t.orientation with
      | some _ => st.needsOrientFlag
      | none => st.needsOrientFlag || t.needsOrient }

def set_node (hashKey : Nat → Nat → Int) (st : SubState)
    (w : Nat → Bool) (t : NodeType) : Option SubState :=
  if st.typeMapEncoded then none
  else if (List.range st.n).all
      (fun i => !(w i) || (st.paramMap i == 0)) then
    some (set_node_apply hashKey st w t)
  else none

/-- Subdomain.encoded_map.  When the gate flag is down, the encoder packs
the type map in place (abstracted as encodeFn) and the flag is raised;
otherwise nothing happens.  Returns the type map content and the updated
state. -/
def encoded_map (encodeFn : (Nat → Nat) → (Nat → Nat)) (st : SubState) :
    (Nat → Nat) × SubState :=
  if st.typeMapEncoded then (st.typeMap, st)
  else
    let tm := encodeFn st.typeMap
    (tm, { st with typeMap := tm, typeMapEncoded := true,
                   encodeCalls := st.encodeCalls + 1 })

/-- Wraparound index: the nonnegative residue of i modulo n, matching
numpy roll/wrap semantics on an axis of length n. -/
def wrap (n : Nat) (i : Int) : Nat :=
  (i % (n : Int)).toNat

/-- All values occurring in a 2D map of shape h by w (np.unique of the
array, as a list with repeats, used only for membership). -/
def uniq2 (h w : Nat) (tm : Nat → Nat → Nat) : List Nat :=
  (List.range h).flatMap fun y => (List.range w).map fun x => tm y x

/-- Membership in the dry set used by _postprocess_nodes: the precomputed
dry node type ids intersected with the types present in the map. -/
def dry2 (dryIds : List Nat) (h w : Nat) (tm : Nat → Nat → Nat)
    (v : Nat) : Bool :=
  dryIds.contains v && (uniq2 h w tm).contains v

/-- The accumulated per-node count of Subdomain2D._postprocess_nodes: for
each lattice basis vector vec, the map is rolled by -vec (x component on
axis 1, y component on axis 0, wrapping), so the value inspected at
(y, x) is the original value at (y + vec_y, x + vec_x) modulo the shape;
the count is how many basis directions see a dry value there. -/
def cnt2 (h w : Nat) (tm : Nat → Nat → Nat) (basis : List (Int × Int))
    (dryIds : List Nat) (y x : Nat) : Nat :=
  basis.countP fun vec =>
    dry2 dryIds h w tm
      (tm (wrap h ((y : Int) + vec.2)) (wrap w ((x : Int) + vec.1)))

/-- Subdomain2D._postprocess_nodes: nodes whose count equals grid.Q are
retagged with the unused (inert) type id; all other nodes keep their
value.  The count is computed entirely on the input map before any
write. -/
def postprocess_nodes_2d (h w Q unusedId : Nat) (basis : List (Int × Int))
    (dryIds : List Nat) (tm : Nat → Nat → Nat) : Nat → Nat → Nat :=
  fun y x => if cnt2 h w tm basis dryIds y x = Q then unusedId else tm y x

/-- Subdomain2D._define_ghosts: a no-op when the envelope is 0, otherwise
every node in the first or last es rows or columns of the padded array
(shape (es + ny + es, es + nx + es)) is stamped with the ghost type. -/
def define_ghosts_2d (es ny nx gid : Nat) (tm : Nat → Nat → Nat) :
    Nat → Nat → Nat :=
  if es = 0 then tm
  else fun y x =>
    if y < es ∨ x < es ∨ es + ny ≤ y ∨ es + nx ≤ x then gid else tm y x

/-- The type-map pipeline of Subdomain.reset for a 2D region: starting
from the map tm0 left by the boundary-condition callback,
_postprocess_nodes runs first (on the whole padded array of shape
(ny + 2 es, nx + 2 es)) and _define_ghosts runs second, in the source
call order. -/
def reset_type_map_2d (es ny nx gid Q unusedId : Nat)
    (basis : List (Int × Int)) (dryIds : List Nat)
    (tm0 : Nat → Nat → Nat) : Nat → Nat → Nat :=
  define_ghosts_2d es ny nx gid
    (postprocess_nodes_2d (ny + 2 * es) (nx + 2 * es) Q unusedId basis
      dryIds tm0)

/-- All values occurring in a 3D map of shape gz by gy by gx. -/
def uniq3 (gz gy gx : Nat) (tm : Nat → Nat → Nat → Nat) : List Nat :=
  (List.range gz).flatMap fun z =>
    (List.range gy).flatMap fun y => (List.range gx).map fun x => tm z y x

/-- Dry membership for the 3D pass (dry ids intersected with present
types). -/
def dry3 (dryIds : List Nat) (gz gy gx : Nat) (tm : Nat → Nat → Nat → Nat)
    (v : Nat) : Bool :=
  dryIds.contains v && (uniq3 gz gy gx tm).contains v

/-- Componentwise negation of a basis vector (x, y, z). -/
def neg3 (e : Int × Int × Int) : Int × Int × Int :=
  (-e.1, -e.2.1, -e.2.2)

/-- The set of kernel cells of Subdomain3D._postprocess_nodes, as offsets
from the 3x3x3 array center: the center cell plus one cell per basis
vector (assignments into the array collapse duplicates, hence dedup).
Faithful to the source when every component lies in {-1, 0, 1}, which the
theorems hypothesize. -/
def kernelOffs (basis : List (Int × Int × Int)) : List (Int × Int × Int) :=
  ((0, 0, 0) :: basis).dedup

/-- The wrapped convolution value of the 3D pass at (z, y, x): scipy
convolve with mode wrap flips the kernel, so a kernel cell at offset e
from the center adds the dry indicator of the map value at position
p - e (wrapping). -/
def conv3 (gz gy gx : Nat) (tm : Nat → Nat → Nat → Nat)
    (basis : List (Int × Int × Int)) (dryIds : List Nat)
    (z y x : Nat) : Nat :=
  (kernelOffs basis).countP fun e =>
    dry3 dryIds gz gy gx tm
      (tm (wrap gz ((z : Int) - e.2.2)) (wrap gy ((y : Int) - e.2.1))
          (wrap gx ((x : Int) - e.1)))

/-- Subdomain3D._postprocess_nodes: nodes where the convolution equals
grid.Q are retagged with the unused type id; others keep their value. -/
def postprocess_nodes_3d (gz gy gx Q unusedId : Nat)
    (basis : List (Int × Int × Int)) (dryIds : List Nat)
    (tm : Nat → Nat → Nat → Nat) : Nat → Nat → Nat → Nat :=
  fun z y x =>
    if conv3 gz gy gx tm basis dryIds z y x = Q then unusedId else tm z y x

/-! Helper lemmas. -/

theorem wrap_lt (n : Nat) (i : Int) (h : 0 < n) : wrap n i < n := by
  unfold wrap
  have hn : (0 : Int) < (n : Int) := by exact_mod_cast h
  have h1 : i % (n : Int) < (n : Int) := Int.emod_lt_of_pos i hn
  have h2 : 0 ≤ i % (n : Int) := Int.emod_nonneg i (by omega)
  omega

theorem contains_uniq2 (h w : Nat) (tm : Nat → Nat → Nat) (y x : Nat)
    (hy : y < h) (hx : x < w) : (uniq2 h w tm).contains (tm y x) = true := by
  have hm : tm y x ∈ uniq2 h w tm := by
    unfold uniq2
    exact List.mem_flatMap.mpr ⟨y, List.mem_range.mpr hy,
      List.mem_map.mpr ⟨x, List.mem_range.mpr hx, rfl⟩⟩
  exact List.elem_iff.mpr hm

theorem contains_uniq3 (gz gy gx : Nat) (tm : Nat → Nat → Nat → Nat)
    (z y x : Nat) (hz : z < gz) (hy : y < gy) (hx : x < gx) :
    (uniq3 gz gy gx tm).contains (tm z y x) = true := by
  have hm : tm z y x ∈ uniq3 gz gy gx tm := by
    unfold uniq3
    exact List.mem_flatMap.mpr ⟨z, List.mem_range.mpr hz,
      List.mem_flatMap.mpr ⟨y, List.mem_range.mpr hy,
        List.mem_map.mpr ⟨x, List.mem_range.mpr hx, rfl⟩⟩⟩
  exact List.elem_iff.mpr hm

theorem lookup_append_empty_getD (m : ConnMap) (f k : Nat) :
    (List.lookup k (m ++ [(f, ([] : List CPair))])).getD []
      = (List.lookup k m).getD [] := by
  induction m with
  | nil =>
    simp only [List.nil_append, List.lookup]
    cases hkf : (k == f) <;> simp [List.lookup, hkf]
  | cons a m ih =>
    cases hka : (k == a.1) <;>
      simp [List.lookup, hka, ih]

theorem lookup_ddSet_self (m : ConnMap) (f : Nat) (v l : List CPair)
    (h : List.lookup f m = some l) :
    List.lookup f (ddSet m f v) = some v := by
  induction m with
  | nil => simp [List.lookup] at h
  | cons a m ih =>
    obtain ⟨k0, v0⟩ := a
    by_cases hfa : f = k0
    · subst hfa
      simp only [ddSet, List.map_cons, if_pos rfl]
      simp [List.lookup]
    · have hne : (f == k0) = false := beq_false_of_ne hfa
      simp only [List.lookup, hne] at h
      simp only [ddSet, List.map_cons]
      rw [if_neg (fun he => hfa he.symm)]
      simp only [List.lookup, hne]
      exact ih h

theorem lookup_ddSet_append (m : ConnMap) (f : Nat) (v l0 : List CPair)
    (h : List.lookup f m = none) :
    List.lookup f (ddSet (m ++ [(f, l0)]) f v) = some v := by
  induction m with
  | nil =>
    simp only [List.nil_append, ddSet, List.map_cons, List.map_nil,
      if_pos rfl]
    simp [List.lookup]
  | cons a m ih =>
    obtain ⟨k0, v0⟩ := a
    by_cases hfa : f = k0
    · subst hfa
      simp [List.lookup] at h
    · have hne : (f == k0) = false := beq_false_of_ne hfa
      simp only [List.lookup, hne] at h
      simp only [ddSet, List.cons_append, List.map_cons]
      rw [if_neg (fun he => hfa he.symm)]
      simp only [List.lookup, hne]
      exact ih h

theorem mem_lookup_add_connection (m : ConnMap) (f : Nat) (p : CPair) :
    ∃ l, List.lookup f (add_connection m f p) = some l ∧ p ∈ l := by
  unfold add_connection ddLookup
  cases h : List.lookup f m with
  | some l =>
    by_cases hp : p ∈ l
    · exact ⟨l, by simpa [hp] using h, hp⟩
    · refine ⟨l ++ [p], ?_, by simp⟩
      simp only [hp, if_false]
      exact lookup_ddSet_self m f (l ++ [p]) l h
  | none =>
    refine ⟨[] ++ [p], ?_, by simp⟩
    simp only [List.not_mem_nil, if_false]
    exact lookup_ddSet_append m f ([] ++ [p]) [] h

/-! Claim theorems. -/

/-- C8 (code_bug evidence): axis_dir_to_face fails to invert
face_to_axis and face_to_dir at the Z_HIGH face.  face_to_axis maps
Z_HIGH to axis 2 and face_to_dir maps it to +1, yet
axis_dir_to_face 2 1 returns None because the axis = 2 branch repeats
the dir = -1 test; every other face (X_LOW, X_HIGH, Y_LOW, Y_HIGH,
Z_LOW) does round-trip. -/
theorem c8_axis_dir_to_face_bug :
    face_to_axis Z_HIGH = some 2 ∧ face_to_dir Z_HIGH = 1 ∧
    axis_dir_to_face 2 1 = none ∧
    axis_dir_to_face 2 (-1) = some Z_LOW ∧
    ((face_to_axis X_LOW).bind fun a =>
        axis_dir_to_face a (face_to_dir X_LOW)) = some X_LOW ∧
    ((face_to_axis X_HIGH).bind fun a =>
        axis_dir_to_face a (face_to_dir X_HIGH)) = some X_HIGH ∧
    ((face_to_axis Y_LOW).bind fun a =>
        axis_dir_to_face a (face_to_dir Y_LOW)) = some Y_LOW ∧
    ((face_to_axis Y_HIGH).bind fun a =>
        axis_dir_to_face a (face_to_dir Y_HIGH)) = some Y_HIGH ∧
    ((face_to_axis Z_LOW).bind fun a =>
        axis_dir_to_face a (face_to_dir Z_LOW)) = some Z_LOW := by
  decide

/-- C9: encoded_map is memoized and idempotent behind the boolean gate: a
second call without intervening writes returns the same content and the
same state, so in particular the encoder packing counter does not
advance. -/
theorem c9_encoded_map_memoized (f : (Nat → Nat) → Nat → Nat)
    (s : SubState) :
    encoded_map f (encoded_map f s).2 = encoded_map f s ∧
    (encoded_map f (encoded_map f s).2).2.encodeCalls
      = (encoded_map f s).2.encodeCalls := by
  have h : encoded_map f (encoded_map f s).2 = encoded_map f s := by
    unfold encoded_map
    by_cases hs : s.typeMapEncoded <;> simp [hs]
  exact ⟨h, by rw [h]⟩

/-- C10 (counterexample): connection queries are not pure.  On a fresh
subdomain with no connections, has_face_conn on face X_HIGH is False; but
after calling get_connections (or get_connection) for that face, the
defaultdict has inserted an empty list for it, and has_face_conn
returns True. -/
theorem c10_queries_not_pure_counterexample :
    has_face_conn ([] : ConnMap) X_HIGH = false ∧
    has_face_conn (get_connections ([] : ConnMap) X_HIGH 3).2 X_HIGH = true ∧
    has_face_conn (get_connection ([] : ConnMap) X_HIGH 3).2 X_HIGH = true := by
  decide

/-- C10 (amended): get_connection and get_connections never add or remove
connection pairs - the pair list of every face is preserved (a face that
was absent merely acquires an empty entry) - and get_connections returns
exactly the face list filtered by remote id.  has_face_conn itself reads
the key set without indexing the defaultdict and mutates nothing, but it
can flip from False to True after a query touched an unregistered face,
as the counterexample shows. -/
theorem c10_queries_preserve_contents (m : ConnMap) (f i k : Nat) :
    (List.lookup k (get_connections m f i).2).getD []
      = (List.lookup k m).getD [] ∧
    (List.lookup k (get_connection m f i).2).getD []
      = (List.lookup k m).getD [] ∧
    (get_connections m f i).1
      = ((List.lookup f m).getD []).filter (fun p => dstIdIs p i) := by
  unfold get_connections get_connection ddLookup
  cases h : List.lookup f m with
  | some l => simp [h]
  | none => simp [h, lookup_append_empty_getD]

/-- C7 (counterexample): a face list is not limited to one connection per
distinct remote subdomain id.  Two distinct pairs whose dst descriptors
both name remote id 7 are registered on face X_HIGH one after the other;
the second is not rejected and get_connections finds both. -/
theorem c7_duplicate_remote_id_counterexample :
    (get_connections
      (add_connection
        (add_connection ([] : ConnMap) X_HIGH
          ⟨some ⟨9, 0⟩, some ⟨7, 0⟩⟩)
        X_HIGH ⟨some ⟨9, 1⟩, some ⟨7, 1⟩⟩)
      X_HIGH 7).1.length = 2 := by
  decide

/-- C7 (amended): duplicate registration is deduplicated by pair equality,
not by remote id: registering a pair already present on the face is a
silent no-op leaving the map unchanged, and _add_connection is
idempotent; but distinct pairs with the same remote id are all kept (see
the counterexample). -/
theorem c7_add_connection_dedup_by_pair :
    (∀ (m : ConnMap) (f : Nat) (p : CPair) (l : List CPair),
      List.lookup f m = some l → p ∈ l → add_connection m f p = m) ∧
    (∀ (m : ConnMap) (f : Nat) (p : CPair),
      add_connection (add_connection m f p) f p = add_connection m f p) := by
  have key : ∀ (m : ConnMap) (f : Nat) (p : CPair) (l : List CPair),
      List.lookup f m = some l → p ∈ l → add_connection m f p = m := by
    intro m f p l h hp
    unfold add_connection ddLookup
    simp [h, hp]
  refine ⟨key, ?_⟩
  intro m f p
  obtain ⟨l, hl, hp⟩ := mem_lookup_add_connection m f p
  exact key _ f p l hl hp

/-- C7 witness: the amended theorem applied at a concrete map holding one
pair on face X_HIGH. -/
theorem c7_add_connection_dedup_by_pair_witness :
    add_connection [(X_HIGH, [⟨some ⟨9, 0⟩, some ⟨7, 0⟩⟩])] X_HIGH
        ⟨some ⟨9, 0⟩, some ⟨7, 0⟩⟩
      = [(X_HIGH, [⟨some ⟨9, 0⟩, some ⟨7, 0⟩⟩])] :=
  c7_add_connection_dedup_by_pair.1
    [(X_HIGH, [⟨some ⟨9, 0⟩, some ⟨7, 0⟩⟩])] X_HIGH
    ⟨some ⟨9, 0⟩, some ⟨7, 0⟩⟩ [⟨some ⟨9, 0⟩, some ⟨7, 0⟩⟩]
    (by decide) (by decide)

/-- C6: connect fails without mutating state, both when no axis yields
boundary coincidence between self and the virtual subdomain (first
conjunct), and when a boundary test succeeds on whichever branch is
reached first but the LBConnection collaborator reports no usable
overlap (returns None) for that coinciding face: the remaining six
conjuncts cover, in source order, the forward-X, reversed-X, forward-Y,
reversed-Y, forward-Z and reversed-Z branches. -/
theorem c6_connect_failure_no_mutation :
    (∀ (make : Spec → Spec → Nat → Option Conn) (self real virt : Spec),
      real.id ≠ self.id →
      self.ex ≠ virt.ox → virt.ex ≠ self.ox →
      self.ey ≠ virt.oy → virt.ey ≠ self.oy →
      (self.dim = 3 → self.ez ≠ virt.oz ∧ virt.ez ≠ self.oz) →
      connect make self real virt = some (false, self, real)) ∧
    (∀ (make : Spec → Spec → Nat → Option Conn) (self real virt : Spec),
      real.id ≠ self.id →
      self.ex = virt.ox → make self virt X_HIGH = none →
      connect make self real virt = some (false, self, real)) ∧
    (∀ (make : Spec → Spec → Nat → Option Conn) (self real virt : Spec),
      real.id ≠ self.id →
      self.ex ≠ virt.ox → virt.ex = self.ox →
      make virt self X_HIGH = none →
      connect make self real virt = some (false, self, real)) ∧
    (∀ (make : Spec → Spec → Nat → Option Conn) (self real virt : Spec),
      real.id ≠ self.id →
      self.ex ≠ virt.ox → virt.ex ≠ self.ox →
      self.ey = virt.oy → make self virt Y_HIGH = none →
      connect make self real virt = some (false, self, real)) ∧
    (∀ (make : Spec → Spec → Nat → Option Conn) (self real virt : Spec),
      real.id ≠ self.id →
      self.ex ≠ virt.ox → virt.ex ≠ self.ox →
      self.ey ≠ virt.oy → virt.ey = self.oy →
      make virt self Y_HIGH = none →
      connect make self real virt = some (false, self, real)) ∧
    (∀ (make : Spec → Spec → Nat → Option Conn) (self real virt : Spec),
      real.id ≠ self.id →
      self.ex ≠ virt.ox → virt.ex ≠ self.ox →
      self.ey ≠ virt.oy → virt.ey ≠ self.oy →
      self.dim = 3 → self.ez = virt.oz →
      make self virt Z_HIGH = none →
      connect make self real virt = some (false, self, real)) ∧
    (∀ (make : Spec → Spec → Nat → Option Conn) (self real virt : Spec),
      real.id ≠ self.id →
      self.ex ≠ virt.ox → virt.ex ≠ self.ox →
      self.ey ≠ virt.oy → virt.ey ≠ self.oy →
      self.dim = 3 → self.ez ≠ virt.oz → virt.ez = self.oz →
      make virt self Z_HIGH = none →
      connect make self real virt = some (false, self, real)) := by
  refine ⟨?_, ?_, ?_, ?_, ?_, ?_, ?_⟩
  · intro make self real virt hid h1 h2 h3 h4 h5
    unfold connect
    rw [if_neg hid, if_neg h1, if_neg h2, if_neg h3, if_neg h4]
    by_cases hd : self.dim = 3
    · rw [if_pos hd, if_neg (h5 hd).1, if_neg (h5 hd).2]
    · rw [if_neg hd]
  · intro make self real virt hid hadj hnone
    unfold connect
    rw [if_neg hid, if_pos hadj]
    unfold connectAxis
    rw [hnone]
  · intro make self real virt hid h1 hadj hnone
    unfold connect
    rw [if_neg hid, if_neg h1, if_pos hadj]
    unfold connectAxis
    rw [hnone]
  · intro make self real virt hid h1 h2 hadj hnone
    unfold connect
    rw [if_neg hid, if_neg h1, if_neg h2, if_pos hadj]
    unfold connectAxis
    rw [hnone]
  · intro make self real virt hid h1 h2 h3 hadj hnone
    unfold connect
    rw [if_neg hid, if_neg h1, if_neg h2, if_neg h3, if_pos hadj]
    unfold connectAxis
    rw [hnone]
  · intro make self real virt hid h1 h2 h3 h4 hd hadj hnone
    unfold connect
    rw [if_neg hid, if_neg h1, if_neg h2, if_neg h3, if_neg h4,
      if_pos hd, if_pos hadj]
    unfold connectAxis
    rw [hnone]
  · intro make self real virt hid h1 h2 h3 h4 hd h5 hadj hnone
    unfold connect
    rw [if_neg hid, if_neg h1, if_neg h2, if_neg h3, if_neg h4,
      if_pos hd, if_neg h5, if_pos hadj]
    unfold connectAxis
    rw [hnone]

/-- C6 witness: a concrete non-adjacent pair (first conjunct) and, for
each of the six coincidence branches, a concrete adjacent pair whose
collaborator reports no overlap; in every case connect returns False
with both connection maps untouched. -/
theorem c6_connect_failure_no_mutation_witness :
    connect (fun _ _ _ => some ⟨0, 0⟩)
        ⟨2, 1, 0, 0, 0, 4, 4, 0, []⟩ ⟨2, 7, 100, 100, 0, 104, 104, 0, []⟩
        ⟨2, 7, 100, 100, 0, 104, 104, 0, []⟩
      = some (false, ⟨2, 1, 0, 0, 0, 4, 4, 0, []⟩,
              ⟨2, 7, 100, 100, 0, 104, 104, 0, []⟩) ∧
    connect (fun _ _ _ => none)
        ⟨2, 1, 0, 0, 0, 4, 4, 0, []⟩ ⟨2, 7, 4, 0, 0, 8, 4, 0, []⟩
        ⟨2, 7, 4, 0, 0, 8, 4, 0, []⟩
      = some (false, ⟨2, 1, 0, 0, 0, 4, 4, 0, []⟩,
              ⟨2, 7, 4, 0, 0, 8, 4, 0, []⟩) ∧
    connect (fun _ _ _ => none)
        ⟨2, 1, 4, 0, 0, 8, 4, 0, []⟩ ⟨2, 7, 0, 0, 0, 4, 4, 0, []⟩
        ⟨2, 7, 0, 0, 0, 4, 4, 0, []⟩
      = some (false, ⟨2, 1, 4, 0, 0, 8, 4, 0, []⟩,
              ⟨2, 7, 0, 0, 0, 4, 4, 0, []⟩) ∧
    connect (fun _ _ _ => none)
        ⟨2, 1, 0, 0, 0, 4, 4, 0, []⟩ ⟨2, 7, 0, 4, 0, 4, 8, 0, []⟩
        ⟨2, 7, 0, 4, 0, 4, 8, 0, []⟩
      = some (false, ⟨2, 1, 0, 0, 0, 4, 4, 0, []⟩,
              ⟨2, 7, 0, 4, 0, 4, 8, 0, []⟩) ∧
    connect (fun _ _ _ => none)
        ⟨2, 1, 0, 4, 0, 4, 8, 0, []⟩ ⟨2, 7, 0, 0, 0, 4, 4, 0, []⟩
        ⟨2, 7, 0, 0, 0, 4, 4, 0, []⟩
      = some (false, ⟨2, 1, 0, 4, 0, 4, 8, 0, []⟩,
              ⟨2, 7, 0, 0, 0, 4, 4, 0, []⟩) ∧
    connect (fun _ _ _ => none)
        ⟨3, 1, 0, 0, 0, 4, 4, 4, []⟩ ⟨3, 7, 0, 0, 4, 4, 4, 8, []⟩
        ⟨3, 7, 0, 0, 4, 4, 4, 8, []⟩
      = some (false, ⟨3, 1, 0, 0, 0, 4, 4, 4, []⟩,
              ⟨3, 7, 0, 0, 4, 4, 4, 8, []⟩) ∧
    connect (fun _ _ _ => none)
        ⟨3, 1, 0, 0, 4, 4, 4, 8, []⟩ ⟨3, 7, 0, 0, 0, 4, 4, 4, []⟩
        ⟨3, 7, 0, 0, 0, 4, 4, 4, []⟩
      = some (false, ⟨3, 1, 0, 0, 4, 4, 4, 8, []⟩,
              ⟨3, 7, 0, 0, 0, 4, 4, 4, []⟩) :=
  ⟨c6_connect_failure_no_mutation.1 (fun _ _ _ => some ⟨0, 0⟩)
      ⟨2, 1, 0, 0, 0, 4, 4, 0, []⟩ ⟨2, 7, 100, 100, 0, 104, 104, 0, []⟩
      ⟨2, 7, 100, 100, 0, 104, 104, 0, []⟩
      (by decide) (by decide) (by decide) (by decide) (by decide)
      (by decide),
   c6_connect_failure_no_mutation.2.1 (fun _ _ _ => none)
      ⟨2, 1, 0, 0, 0, 4, 4, 0, []⟩ ⟨2, 7, 4, 0, 0, 8, 4, 0, []⟩
      ⟨2, 7, 4, 0, 0, 8, 4, 0, []⟩
      (by decide) (by decide) rfl,
   c6_connect_failure_no_mutation.2.2.1 (fun _ _ _ => none)
      ⟨2, 1, 4, 0, 0, 8, 4, 0, []⟩ ⟨2, 7, 0, 0, 0, 4, 4, 0, []⟩
      ⟨2, 7, 0, 0, 0, 4, 4, 0, []⟩
      (by decide) (by decide) (by decide) rfl,
   c6_connect_failure_no_mutation.2.2.2.1 (fun _ _ _ => none)
      ⟨2, 1, 0, 0, 0, 4, 4, 0, []⟩ ⟨2, 7, 0, 4, 0, 4, 8, 0, []⟩
      ⟨2, 7, 0, 4, 0, 4, 8, 0, []⟩
      (by decide) (by decide) (by decide) (by decide) rfl,
   c6_connect_failure_no_mutation.2.2.2.2.1 (fun _ _ _ => none)
      ⟨2, 1, 0, 4, 0, 4, 8, 0, []⟩ ⟨2, 7, 0, 0, 0, 4, 4, 0, []⟩
      ⟨2, 7, 0, 0, 0, 4, 4, 0, []⟩
      (by decide) (by decide) (by decide) (by decide) (by decide) rfl,
   c6_connect_failure_no_mutation.2.2.2.2.2.1 (fun _ _ _ => none)
      ⟨3, 1, 0, 0, 0, 4, 4, 4, []⟩ ⟨3, 7, 0, 0, 4, 4, 4, 8, []⟩
      ⟨3, 7, 0, 0, 4, 4, 4, 8, []⟩
      (by decide) (by decide) (by decide) (by decide) (by decide)
      (by decide) (by decide) rfl,
   c6_connect_failure_no_mutation.2.2.2.2.2.2 (fun _ _ _ => none)
      ⟨3, 1, 0, 0, 4, 4, 4, 8, []⟩ ⟨3, 7, 0, 0, 0, 4, 4, 4, []⟩
      ⟨3, 7, 0, 0, 0, 4, 4, 4, []⟩
      (by decide) (by decide) (by decide) (by decide) (by decide)
      (by decide) (by decide) (by decide) rfl⟩

/-- C2: with A placed so that A.ex equals B.ox, empty connection state on
both sides, and the collaborator producing descriptors for the shared
face (the descriptor built from B carrying remote id B.id), A.connect(B)
returns True, registers exactly the one new pair on A face X_HIGH and
exactly the one mirrored pair on B face X_LOW, and
A.get_connections(X_HIGH, B.id) returns exactly that pair. -/
theorem c2_connect_adjacent (make : Spec → Spec → Nat → Option Conn)
    (A B : Spec) (c1 c2 : Conn)
    (hid : B.id ≠ A.id) (hadj : A.ex = B.ox)
    (hA : A.conns = []) (hB : B.conns = [])
    (h1 : make A B X_HIGH = some c1) (h2 : make B A X_LOW = some c2)
    (hbid : c2.block_id = B.id) :
    connect make A B B = some (true,
      { A with conns := [(X_HIGH, [⟨some c1, some c2⟩])] },
      { B with conns := [(X_LOW, [⟨some c2, some c1⟩])] }) ∧
    (get_connections [(X_HIGH, [⟨some c1, some c2⟩])] X_HIGH B.id).1
      = [⟨some c1, some c2⟩] := by
  constructor
  · unfold connect
    rw [if_neg hid, if_pos hadj]
    unfold connectAxis
    rw [h1, h2, hA, hB]
    simp [add_connection, ddLookup, ddSet, List.lookup]
  · simp [get_connections, ddLookup, List.lookup, dstIdIs, hbid]

/-- C2 witness: two concrete 4x4 regions side by side along X with a
collaborator that stamps the source region id into each descriptor. -/
theorem c2_connect_adjacent_witness :
    connect (fun s _ f => some ⟨s.id, f⟩)
        ⟨2, 1, 0, 0, 0, 4, 4, 0, []⟩ ⟨2, 7, 4, 0, 0, 8, 4, 0, []⟩
        ⟨2, 7, 4, 0, 0, 8, 4, 0, []⟩
      = some (true,
        { (⟨2, 1, 0, 0, 0, 4, 4, 0, []⟩ : Spec) with
            conns := [(X_HIGH, [⟨some ⟨1, X_HIGH⟩, some ⟨7, X_LOW⟩⟩])] },
        { (⟨2, 7, 4, 0, 0, 8, 4, 0, []⟩ : Spec) with
            conns := [(X_LOW, [⟨some ⟨7, X_LOW⟩, some ⟨1, X_HIGH⟩⟩])] }) ∧
    (get_connections [(X_HIGH, [⟨some ⟨1, X_HIGH⟩, some ⟨7, X_LOW⟩⟩])]
        X_HIGH 7).1
      = [⟨some ⟨1, X_HIGH⟩, some ⟨7, X_LOW⟩⟩] :=
  c2_connect_adjacent (fun s _ f => some ⟨s.id, f⟩)
    ⟨2, 1, 0, 0, 0, 4, 4, 0, []⟩ ⟨2, 7, 4, 0, 0, 8, 4, 0, []⟩
    ⟨1, X_HIGH⟩ ⟨7, X_LOW⟩
    (by decide) (by decide) rfl rfl rfl rfl rfl

/-- C4: in the periodic case the pair holds the real subdomain and a
translated copy of it; adjacency is decided by the copy (here its low-X
boundary meets self.ex) and when the collaborator produces a descriptor
the connection succeeds, with the new pair registered on self.X_HIGH and
on the REAL subdomain at X_LOW.  The second conjunct runs the
non-periodic code path with the copy in both slots of the pair: the
success flag and the updated self are identical, and the only difference
is which object receives the X_LOW registration - showing the periodic
result links back to real, not to the virtual copy. -/
theorem c4_periodic_connect (make : Spec → Spec → Nat → Option Conn)
    (self real : Spec) (dx dy dz : Int) (c1 : Conn)
    (hid : real.id ≠ self.id)
    (hadj : self.ex = (translate real dx dy dz).ox)
    (h1 : make self (translate real dx dy dz) X_HIGH = some c1) :
    connect make self real (translate real dx dy dz)
      = some (true,
        { self with conns := (add_connection self.conns X_HIGH
            ⟨some c1, make (translate real dx dy dz) self X_LOW⟩) },
        { real with conns := (add_connection real.conns X_LOW
            ⟨make (translate real dx dy dz) self X_LOW, some c1⟩) }) ∧
    connect make self (translate real dx dy dz) (translate real dx dy dz)
      = some (true,
        { self with conns := (add_connection self.conns X_HIGH
            ⟨some c1, make (translate real dx dy dz) self X_LOW⟩) },
        { translate real dx dy dz with
            conns := (add_connection (translate real dx dy dz).conns X_LOW
              ⟨make (translate real dx dy dz) self X_LOW, some c1⟩) }) := by
  have hid2 : (translate real dx dy dz).id ≠ self.id := hid
  constructor
  · unfold connect
    rw [if_neg hid, if_pos hadj]
    unfold connectAxis
    rw [h1]
  · unfold connect
    rw [if_neg hid2, if_pos hadj]
    unfold connectAxis
    rw [h1]

/-- C4 witness: self spans x in [8, 12) at the high-X edge of a width-12
domain, real spans x in [0, 4) at the low-X edge; the virtual copy is
real translated by +12 so its low-X boundary meets self.ex = 12. -/
theorem c4_periodic_connect_witness :
    connect (fun s _ f => some ⟨s.id, f⟩)
        ⟨2, 1, 8, 0, 0, 12, 4, 0, []⟩ ⟨2, 7, 0, 0, 0, 4, 4, 0, []⟩
        (translate ⟨2, 7, 0, 0, 0, 4, 4, 0, []⟩ 12 0 0)
      = some (true,
        { (⟨2, 1, 8, 0, 0, 12, 4, 0, []⟩ : Spec) with
            conns := (add_connection [] X_HIGH
              ⟨some ⟨1, X_HIGH⟩,
               (fun (s _ : Spec) (f : Nat) => some (⟨s.id, f⟩ : Conn))
                 (translate ⟨2, 7, 0, 0, 0, 4, 4, 0, []⟩ 12 0 0)
                 ⟨2, 1, 8, 0, 0, 12, 4, 0, []⟩ X_LOW⟩) },
        { (⟨2, 7, 0, 0, 0, 4, 4, 0, []⟩ : Spec) with
            conns := (add_connection [] X_LOW
              ⟨(fun (s _ : Spec) (f : Nat) => some (⟨s.id, f⟩ : Conn))
                 (translate ⟨2, 7, 0, 0, 0, 4, 4, 0, []⟩ 12 0 0)
                 ⟨2, 1, 8, 0, 0, 12, 4, 0, []⟩ X_LOW,
               some ⟨1, X_HIGH⟩⟩) }) ∧
    connect (fun s _ f => some ⟨s.id, f⟩)
        ⟨2, 1, 8, 0, 0, 12, 4, 0, []⟩
        (translate ⟨2, 7, 0, 0, 0, 4, 4, 0, []⟩ 12 0 0)
        (translate ⟨2, 7, 0, 0, 0, 4, 4, 0, []⟩ 12 0 0)
      = some (true,
        { (⟨2, 1, 8, 0, 0, 12, 4, 0, []⟩ : Spec) with
            conns := (add_connection [] X_HIGH
              ⟨some ⟨1, X_HIGH⟩,
               (fun (s _ : Spec) (f : Nat) => some (⟨s.id, f⟩ : Conn))
                 (translate ⟨2, 7, 0, 0, 0, 4, 4, 0, []⟩ 12 0 0)
                 ⟨2, 1, 8, 0, 0, 12, 4, 0, []⟩ X_LOW⟩) },
        { translate ⟨2, 7, 0, 0, 0, 4, 4, 0, []⟩ 12 0 0 with
            conns := (add_connection
              (translate (⟨2, 7, 0, 0, 0, 4, 4, 0, []⟩ : Spec) 12 0 0).conns
              X_LOW
              ⟨(fun (s _ : Spec) (f : Nat) => some (⟨s.id, f⟩ : Conn))
                 (translate ⟨2, 7, 0, 0, 0, 4, 4, 0, []⟩ 12 0 0)
                 ⟨2, 1, 8, 0, 0, 12, 4, 0, []⟩ X_LOW,
               some ⟨1, X_HIGH⟩⟩) }) :=
  c4_periodic_connect (fun s _ f => some ⟨s.id, f⟩)
    ⟨2, 1, 8, 0, 0, 12, 4, 0, []⟩ ⟨2, 7, 0, 0, 0, 4, 4, 0, []⟩
    12 0 0 ⟨1, X_HIGH⟩ (by decide) rfl rfl

/-- Helper: set_node succeeds on a not-yet-encoded grid whose selected
param-map entries are all zero, yielding exactly the updated state the
source writes. -/
theorem set_node_succeeds (hk : Nat → Nat → Int) (st : SubState)
    (w : Nat → Bool) (t : NodeType)
    (henc : st.typeMapEncoded = false)
    (hz : ∀ j, j < st.n → w j = true → st.paramMap j = 0) :
    set_node hk st w t = some (set_node_apply hk st w t) := by
  have hall : ((List.range st.n).all
      (fun i => !(w i) || (st.paramMap i == 0))) = true := by
    refine List.all_eq_true.mpr ?_
    intro i hi
    by_cases hw : w i = true
    · simp [hw, hz i (List.mem_range.mp hi) hw]
    · simp [Bool.not_eq_true] at hw
      simp [hw]
  simp only [set_node, henc, Bool.false_eq_true, if_false, hall, if_true]

/-- Helper: set_node fails (assertion) whenever some selected node already
has a non-zero param-map entry. -/
theorem set_node_fails (hk : Nat → Nat → Int) (st : SubState)
    (w : Nat → Bool) (t : NodeType) (i : Nat)
    (hi : i < st.n) (hw : w i = true) (hp : st.paramMap i ≠ 0) :
    set_node hk st w t = none := by
  unfold set_node
  by_cases henc : st.typeMapEncoded
  · simp [henc]
  · simp only [henc, Bool.false_eq_true, if_false]
    rw [if_neg]
    intro hall
    have := List.all_eq_true.mp hall i (List.mem_range.mpr hi)
    simp [hw] at this
    exact hp this

/-- C3: the write-once invariant of set_node.  First conjunct: any call
selecting a node whose param-key entry is already non-zero fails with the
assertion, whatever the node type.  Second conjunct: after a successful
set_node whose content key is non-zero, repeating the very same call
(identical node type included) fails.  Third conjunct: two set_node calls
on disjoint node sets with types hashing to different keys both succeed,
each type stays retrievable under its own key, and each selected node
carries its own type id. -/
theorem c3_set_node_write_once :
    (∀ (hk : Nat → Nat → Int) (st : SubState) (w : Nat → Bool)
        (t : NodeType) (i : Nat),
      i < st.n → w i = true → st.paramMap i ≠ 0 →
      set_node hk st w t = none) ∧
    (∀ (hk : Nat → Nat → Int) (st : SubState) (w : Nat → Bool)
        (t : NodeType) (i : Nat),
      st.typeMapEncoded = false →
      (∀ j, j < st.n → st.paramMap j = 0) →
      i < st.n → w i = true → hk t.tid t.paramsCode ≠ 0 →
      ∃ s1, set_node hk st w t = some s1 ∧ set_node hk s1 w t = none) ∧
    (∀ (hk : Nat → Nat → Int) (st : SubState) (w1 w2 : Nat → Bool)
        (t1 t2 : NodeType),
      st.typeMapEncoded = false →
      (∀ j, j < st.n → st.paramMap j = 0) →
      (∀ j, ¬(w1 j = true ∧ w2 j = true)) →
      hk t1.tid t1.paramsCode ≠ hk t2.tid t2.paramsCode →
      ∃ s1 s2, set_node hk st w1 t1 = some s1 ∧
        set_node hk s1 w2 t2 = some s2 ∧
        List.lookup (hk t1.tid t1.paramsCode) s2.params = some t1 ∧
        List.lookup (hk t2.tid t2.paramsCode) s2.params = some t2 ∧
        (∀ j, w1 j = true → s2.typeMap j = t1.tid) ∧
        (∀ j, w2 j = true → s2.typeMap j = t2.tid)) := by
  refine ⟨fun hk st w t i hi hw hp => set_node_fails hk st w t i hi hw hp,
    ?_, ?_⟩
  · intro hk st w t i henc hz hi hw hkey
    refine ⟨set_node_apply hk st w t,
      set_node_succeeds hk st w t henc (fun j hj _ => hz j hj), ?_⟩
    refine set_node_fails hk _ w t i hi hw ?_
    simp only [set_node_apply, hw, if_true]
    exact hkey
  · intro hk st w1 w2 t1 t2 henc hz hdisj hkey
    have h1 := set_node_succeeds hk st w1 t1 henc
      (fun j hj _ => hz j hj)
    have hz2 : ∀ j, j < (set_node_apply hk st w1 t1).n → w2 j = true →
        (set_node_apply hk st w1 t1).paramMap j = 0 := by
      intro j hj hw2
      have hw1 : w1 j ≠ true := fun hw1 => hdisj j ⟨hw1, hw2⟩
      simp only [Bool.not_eq_true] at hw1
      simp only [set_node_apply, hw1, Bool.false_eq_true, if_false]
      exact hz j hj
    have h2 := set_node_succeeds hk (set_node_apply hk st w1 t1) w2 t2
      (by simp [set_node_apply, henc]) hz2
    refine ⟨set_node_apply hk st w1 t1,
      set_node_apply hk (set_node_apply hk st w1 t1) w2 t2,
      h1, h2, ?_, ?_, ?_, ?_⟩
    · have hb : (hk t1.tid t1.paramsCode == hk t2.tid t2.paramsCode)
          = false := beq_false_of_ne hkey
      simp [set_node_apply, List.lookup, hb]
    · simp [set_node_apply, List.lookup]
    · intro j hw1
      have hw2 : w2 j ≠ true := fun hw2 => hdisj j ⟨hw1, hw2⟩
      simp only [Bool.not_eq_true] at hw2
      simp [set_node_apply, hw1, hw2]
    · intro j hw2
      simp [set_node_apply, hw2]

/-- Concrete content hash for witnesses: id + params code + 1 (injective
on the instances used, never zero). -/
def hkW : Nat → Nat → Int := fun i p => (i : Int) + (p : Int) + 1

/-- A fresh 2-node grid state for witnesses. -/
def stW : SubState :=
  ⟨2, fun _ => 0, fun _ => 0, [], [0], fun _ => 0, false, false, 0⟩

/-- The same grid with every param-map entry already non-zero. -/
def stW6 : SubState := { stW with paramMap := fun _ => 6 }

/-- Selector of node 0. -/
def w1W : Nat → Bool := fun j => j == 0

/-- Selector of node 1. -/
def w2W : Nat → Bool := fun j => j == 1

/-- A node type with id 5 and params code 0. -/
def t1W : NodeType := ⟨5, 0, none, false⟩

/-- A node type with id 3 and params code 1. -/
def t2W : NodeType := ⟨3, 1, none, false⟩

/-- C3 witness: all three conjuncts at concrete two-node grids. -/
theorem c3_set_node_write_once_witness :
    set_node hkW stW6 w1W t1W = none ∧
    (∃ s1, set_node hkW stW w1W t1W = some s1 ∧
      set_node hkW s1 w1W t1W = none) ∧
    (∃ s1 s2, set_node hkW stW w1W t1W = some s1 ∧
      set_node hkW s1 w2W t2W = some s2 ∧
      List.lookup (hkW t1W.tid t1W.paramsCode) s2.params = some t1W ∧
      List.lookup (hkW t2W.tid t2W.paramsCode) s2.params = some t2W ∧
      (∀ j, w1W j = true → s2.typeMap j = t1W.tid) ∧
      (∀ j, w2W j = true → s2.typeMap j = t2W.tid)) :=
  ⟨c3_set_node_write_once.1 hkW stW6 w1W t1W 0 (by decide) rfl (by decide),
   c3_set_node_write_once.2.1 hkW stW w1W t1W 0 rfl (fun _ _ => rfl)
     (by decide) rfl (by decide),
   c3_set_node_write_once.2.2 hkW stW w1W w2W t1W t2W rfl (fun _ _ => rfl)
     (by
       intro j h
       obtain ⟨h1, h2⟩ := h
       simp only [w1W, w2W, beq_iff_eq] at h1 h2
       omega)
     (by decide)⟩

/-- C5: in reset, the classification pass runs on the map left by the
boundary-condition callback and ghost stamping runs afterwards: every
node of the padded array within envelope_size of an outer face ends up
with the ghost type regardless of what classification produced there
(first conjunct), every other node carries exactly the classification of
the pre-ghost map (second conjunct), and with envelope 0 ghost stamping
is the identity (third conjunct). -/
theorem c5_reset_order_and_ghosts :
    (∀ (es ny nx gid Q u : Nat) (basis : List (Int × Int))
        (dryIds : List Nat) (tm0 : Nat → Nat → Nat) (y x : Nat),
      0 < es →
      (y < es ∨ x < es ∨ es + ny ≤ y ∨ es + nx ≤ x) →
      reset_type_map_2d es ny nx gid Q u basis dryIds tm0 y x = gid) ∧
    (∀ (es ny nx gid Q u : Nat) (basis : List (Int × Int))
        (dryIds : List Nat) (tm0 : Nat → Nat → Nat) (y x : Nat),
      ¬(y < es ∨ x < es ∨ es + ny ≤ y ∨ es + nx ≤ x) →
      reset_type_map_2d es ny nx gid Q u basis dryIds tm0 y x
        = postprocess_nodes_2d (ny + 2 * es) (nx + 2 * es) Q u basis
            dryIds tm0 y x) ∧
    (∀ (ny nx gid : Nat) (tm : Nat → Nat → Nat),
      define_ghosts_2d 0 ny nx gid tm = tm) := by
  refine ⟨?_, ?_, ?_⟩
  · intro es ny nx gid Q u basis dryIds tm0 y x hes hband
    unfold reset_type_map_2d define_ghosts_2d
    rw [if_neg (Nat.pos_iff_ne_zero.mp hes)]
    exact if_pos hband
  · intro es ny nx gid Q u basis dryIds tm0 y x hband
    unfold reset_type_map_2d define_ghosts_2d
    by_cases hes : es = 0
    · rw [if_pos hes]
    · rw [if_neg hes]
      exact if_neg hband
  · intro ny nx gid tm
    unfold define_ghosts_2d
    exact if_pos rfl

/-- C5 witness: a 1x1 interior with envelope 1 (padded 3x3): the corner
node (0,0) is stamped ghost, the center (1,1) keeps its classification,
and envelope 0 leaves the map alone. -/
theorem c5_reset_order_and_ghosts_witness :
    reset_type_map_2d 1 1 1 77 1 9 [(0, 0)] [5]
      (fun _ _ => 5) 0 0 = 77 ∧
    reset_type_map_2d 1 1 1 77 1 9 [(0, 0)] [5]
      (fun _ _ => 5) 1 1
      = postprocess_nodes_2d 3 3 1 9 [(0, 0)] [5] (fun _ _ => 5) 1 1 ∧
    define_ghosts_2d 0 4 4 77 (fun _ _ => 5) = (fun _ _ => 5) :=
  ⟨c5_reset_order_and_ghosts.1 1 1 1 77 1 9 [(0, 0)] [5]
      (fun _ _ => 5) 0 0 (by decide) (by decide),
   c5_reset_order_and_ghosts.2.1 1 1 1 77 1 9 [(0, 0)] [5]
      (fun _ _ => 5) 1 1 (by decide),
   c5_reset_order_and_ghosts.2.2 4 4 77 (fun _ _ => 5)⟩

/-- Helper: with the rest vector among the basis vectors and no
duplicates, the 3D kernel cell set is exactly the basis. -/
theorem kernelOffs_eq (basis : List (Int × Int × Int))
    (h0 : (0, 0, 0) ∈ basis) (hnd : basis.Nodup) :
    kernelOffs basis = basis := by
  unfold kernelOffs
  rw [List.dedup_cons_of_mem h0]
  exact hnd.dedup

/-- C1: the classification pass.  2D (roll-based) conjuncts: a dry node
whose neighbor in every one of the Q basis directions (value of the type
map at position plus the direction vector, wrapping at the array edges)
is dry is retagged with the unused type id; a dry node with at least one
non-dry directional neighbor keeps its value.  3D (wrap convolution)
conjuncts: the same two statements, under the lattice facts true of every
sailfish grid (Q is the number of basis vectors, the vectors are
distinct, include the rest vector, are closed under negation, and have
components in -1..1 so the 3x3x3 kernel represents them exactly). -/
theorem c1_classification_pass :
    (∀ (h w Q u : Nat) (basis : List (Int × Int)) (dryIds : List Nat)
        (tm : Nat → Nat → Nat) (y x : Nat),
      0 < h → 0 < w → Q = basis.length → y < h → x < w →
      dryIds.contains (tm y x) = true →
      (∀ vec ∈ basis,
        dryIds.contains
          (tm (wrap h ((y : Int) + vec.2)) (wrap w ((x : Int) + vec.1)))
          = true) →
      postprocess_nodes_2d h w Q u basis dryIds tm y x = u) ∧
    (∀ (h w Q u : Nat) (basis : List (Int × Int)) (dryIds : List Nat)
        (tm : Nat → Nat → Nat) (y x : Nat),
      0 < h → 0 < w → Q = basis.length → y < h → x < w →
      dryIds.contains (tm y x) = true →
      (∃ vec ∈ basis,
        dryIds.contains
          (tm (wrap h ((y : Int) + vec.2)) (wrap w ((x : Int) + vec.1)))
          = false) →
      postprocess_nodes_2d h w Q u basis dryIds tm y x = tm y x) ∧
    (∀ (gz gy gx Q u : Nat) (basis : List (Int × Int × Int))
        (dryIds : List Nat) (tm : Nat → Nat → Nat → Nat) (z y x : Nat),
      0 < gz → 0 < gy → 0 < gx → Q = basis.length →
      basis.Nodup → (0, 0, 0) ∈ basis →
      (∀ e ∈ basis, neg3 e ∈ basis) →
      (∀ e ∈ basis, e.1.natAbs ≤ 1 ∧ e.2.1.natAbs ≤ 1 ∧ e.2.2.natAbs ≤ 1) →
      z < gz → y < gy → x < gx →
      dryIds.contains (tm z y x) = true →
      (∀ e ∈ basis,
        dryIds.contains
          (tm (wrap gz ((z : Int) + e.2.2)) (wrap gy ((y : Int) + e.2.1))
              (wrap gx ((x : Int) + e.1))) = true) →
      postprocess_nodes_3d gz gy gx Q u basis dryIds tm z y x = u) ∧
    (∀ (gz gy gx Q u : Nat) (basis : List (Int × Int × Int))
        (dryIds : List Nat) (tm : Nat → Nat → Nat → Nat) (z y x : Nat),
      0 < gz → 0 < gy → 0 < gx → Q = basis.length →
      basis.Nodup → (0, 0, 0) ∈ basis →
      (∀ e ∈ basis, neg3 e ∈ basis) →
      (∀ e ∈ basis, e.1.natAbs ≤ 1 ∧ e.2.1.natAbs ≤ 1 ∧ e.2.2.natAbs ≤ 1) →
      z < gz → y < gy → x < gx →
      dryIds.contains (tm z y x) = true →
      (∃ e ∈ basis,
        dryIds.contains
          (tm (wrap gz ((z : Int) + e.2.2)) (wrap gy ((y : Int) + e.2.1))
              (wrap gx ((x : Int) + e.1))) = false) →
      postprocess_nodes_3d gz gy gx Q u basis dryIds tm z y x = tm z y x)
    := by
  refine ⟨?_, ?_, ?_, ?_⟩
  · intro h w Q u basis dryIds tm y x hh hw hQ hy hx hown hnb
    subst hQ
    have hcnt : cnt2 h w tm basis dryIds y x = basis.length := by
      unfold cnt2
      refine List.countP_eq_length.mpr ?_
      intro vec hv
      show dry2 dryIds h w tm
        (tm (wrap h ((y : Int) + vec.2)) (wrap w ((x : Int) + vec.1)))
        = true
      unfold dry2
      rw [Bool.and_eq_true]
      exact ⟨hnb vec hv,
        contains_uniq2 h w tm _ _ (wrap_lt h _ hh) (wrap_lt w _ hw)⟩
    unfold postprocess_nodes_2d
    rw [if_pos hcnt]
  · intro h w Q u basis dryIds tm y x hh hw hQ hy hx hown hex
    subst hQ
    obtain ⟨vec, hv, hfalse⟩ := hex
    have hne : cnt2 h w tm basis dryIds y x ≠ basis.length := by
      intro heq
      have hall := List.countP_eq_length.mp heq vec hv
      have : dry2 dryIds h w tm
          (tm (wrap h ((y : Int) + vec.2)) (wrap w ((x : Int) + vec.1)))
          = true := hall
      unfold dry2 at this
      rw [Bool.and_eq_true] at this
      rw [hfalse] at this
      exact Bool.false_ne_true this.1
    unfold postprocess_nodes_2d
    rw [if_neg hne]
  · intro gz gy gx Q u basis dryIds tm z y x hgz hgy hgx hQ hnd h0 hsym
      _hcomp hbz hby hbx hown hnb
    subst hQ
    have hk : kernelOffs basis = basis := kernelOffs_eq basis h0 hnd
    have hcnt : conv3 gz gy gx tm basis dryIds z y x = basis.length := by
      unfold conv3
      rw [hk]
      refine List.countP_eq_length.mpr ?_
      intro o ho
      show dry3 dryIds gz gy gx tm
        (tm (wrap gz ((z : Int) - o.2.2)) (wrap gy ((y : Int) - o.2.1))
            (wrap gx ((x : Int) - o.1))) = true
      have hd := hnb (neg3 o) (hsym o ho)
      unfold dry3
      rw [Bool.and_eq_true]
      constructor
      · simp only [sub_eq_add_neg]
        simpa [neg3] using hd
      · exact contains_uniq3 gz gy gx tm _ _ _
          (wrap_lt gz _ hgz) (wrap_lt gy _ hgy) (wrap_lt gx _ hgx)
    unfold postprocess_nodes_3d
    rw [if_pos hcnt]
  · intro gz gy gx Q u basis dryIds tm z y x hgz hgy hgx hQ hnd h0 hsym
      _hcomp hbz hby hbx hown hex
    subst hQ
    have hk : kernelOffs basis = basis := kernelOffs_eq basis h0 hnd
    obtain ⟨e, he, hfalse⟩ := hex
    have hne : conv3 gz gy gx tm basis dryIds z y x ≠ basis.length := by
      intro heq
      unfold conv3 at heq
      rw [hk] at heq
      have hall := List.countP_eq_length.mp heq (neg3 e) (hsym e he)
      have hthis : dry3 dryIds gz gy gx tm
          (tm (wrap gz ((z : Int) - (neg3 e).2.2))
              (wrap gy ((y : Int) - (neg3 e).2.1))
              (wrap gx ((x : Int) - (neg3 e).1))) = true := hall
      simp only [neg3, sub_neg_eq_add] at hthis
      unfold dry3 at hthis
      rw [Bool.and_eq_true] at hthis
      rw [hfalse] at hthis
      exact Bool.false_ne_true hthis.1
    unfold postprocess_nodes_3d
    rw [if_neg hne]

/-- C1 witness: all four conjuncts on concrete grids.  2D: a 1x1 fully
dry wrapped grid becomes unused; a 1x2 grid with one dry and one wet node
keeps the dry node.  3D: the same two shapes with rest-vector + x-pair
bases. -/
theorem c1_classification_pass_witness :
    postprocess_nodes_2d 1 1 1 9 [(0, 0)] [5] (fun _ _ => 5) 0 0 = 9 ∧
    postprocess_nodes_2d 1 2 1 9 [(1, 0)] [5]
      (fun _ x => if x = 0 then 5 else 3) 0 0 = 5 ∧
    postprocess_nodes_3d 1 1 1 1 9 [(0, 0, 0)] [5]
      (fun _ _ _ => 5) 0 0 0 = 9 ∧
    postprocess_nodes_3d 1 1 2 3 9 [(0, 0, 0), (1, 0, 0), (-1, 0, 0)] [5]
      (fun _ _ x => if x = 0 then 5 else 3) 0 0 0 = 5 :=
  ⟨c1_classification_pass.1 1 1 1 9 [(0, 0)] [5] (fun _ _ => 5) 0 0
      (by decide) (by decide) rfl (by decide) (by decide) (by decide)
      (by decide),
   c1_classification_pass.2.1 1 2 1 9 [(1, 0)] [5]
      (fun _ x => if x = 0 then 5 else 3) 0 0
      (by decide) (by decide) rfl (by decide) (by decide) (by decide)
      (by decide),
   c1_classification_pass.2.2.1 1 1 1 1 9 [(0, 0, 0)] [5]
      (fun _ _ _ => 5) 0 0 0
      (by decide) (by decide) (by decide) rfl (by decide) (by decide)
      (by decide) (by decide) (by decide) (by decide) (by decide)
      (by decide) (by decide),
   c1_classification_pass.2.2.2 1 1 2 3 9
      [(0, 0, 0), (1, 0, 0), (-1, 0, 0)] [5]
      (fun _ _ x => if x = 0 then 5 else 3) 0 0 0
      (by decide) (by decide) (by decide) rfl (by decide) (by decide)
      (by decide) (by decide) (by decide) (by decide) (by decide)
      (by decide) (by decide)⟩

end Sailfish
